import Mathlib

/-!
Verification of `openapi3/schema_validation_settings.go`: the option-driven
validation-policy object (`schemaValidationSettings`), its functional-options
construction (`newSchemaValidationSettings`), the fallback schema resolution
operation (`schemaResolve`), and the extension hooks.

Go state is embedded by explicit state passing: an option mutating the settings
struct becomes a function `schemaValidationSettings → schemaValidationSettings`;
a Go nil pointer or nil function value becomes `Option`; a call that would fault
on nil is made explicit with an `Option`-valued checked variant.
-/

namespace Openapi3

/-- `Schema` is declared elsewhere in the repository (`schema.go`); the settings
layer only passes `*Schema` values around without inspecting them, so its
contents are opaque here and it is modelled as a wrapper around an identifier. -/
structure Schema where
  id : Nat
deriving DecidableEq

/-- `SchemaError` is declared elsewhere in the repository (`schema.go`); at this
layer it is an opaque error value. Its default rendering (the validator's own
`Error()` output, consulted when no customizer applies) is modelled as a stored
string. -/
structure SchemaError where
  defaultMessage : String
deriving DecidableEq

/-- Modelled from the spec: `SchemaRef` is declared in a source file missing
here (`refs.go`); per the spec it is a schema-or-reference value where either a
direct schema is embedded (`Value`, a nilable `*Schema`) or a reference string
is present (`Ref`). -/
structure SchemaRef where
  Ref : String
  Value : Option Schema
deriving DecidableEq

/-- The settings struct `schemaValidationSettings`. The `sync.Once` latch
`onceSettingDefaults` is embedded as its done flag `onceSettingDefaultsDone`;
the Go callback `defaultsSet func()` is side-effecting with no return value, so
only its presence is modelled (`Option Unit`); the nilable function fields
`customizeMessageError` and `customizeSchemaResolve` become `Option`-wrapped
Lean functions. -/
structure schemaValidationSettings where
  failfast : Bool
  multiError : Bool
  asreq : Bool
  asrep : Bool
  formatValidationEnabled : Bool
  unknownPropertyValidationEnabled : Bool
  patternValidationDisabled : Bool
  readOnlyValidationDisabled : Bool
  writeOnlyValidationDisabled : Bool
  onceSettingDefaultsDone : Bool
  defaultsSet : Option Unit
  customizeMessageError : Option (SchemaError → String)
  customizeSchemaResolve : Option (String → Option Schema)

/-- The Go zero value `&schemaValidationSettings{}` that construction starts
from: every bool false, every pointer/function field nil, the `sync.Once`
latch unfired. -/
def emptySchemaValidationSettings : schemaValidationSettings :=
  { failfast := false
    multiError := false
    asreq := false
    asrep := false
    formatValidationEnabled := false
    unknownPropertyValidationEnabled := false
    patternValidationDisabled := false
    readOnlyValidationDisabled := false
    writeOnlyValidationDisabled := false
    onceSettingDefaultsDone := false
    defaultsSet := none
    customizeMessageError := none
    customizeSchemaResolve := none }

/-- `SchemaValidationOption func(*schemaValidationSettings)`: a mutation of the
settings struct, embedded as a state-passing function. -/
abbrev SchemaValidationOption := schemaValidationSettings → schemaValidationSettings

/-- `schemaResolve`: return the embedded `Value` if non-nil, or if no
`customizeSchemaResolve` hook is configured; otherwise consult the hook when
the reference string is non-empty, else return nil. -/
def schemaResolve (s : schemaValidationSettings) (schemaRef : SchemaRef) :
    Option Schema :=
  match schemaRef.Value, s.customizeSchemaResolve with
  | some v, _ => some v
  | none, none => none
  | none, some resolve =>
    if 0 < schemaRef.Ref.length then resolve schemaRef.Ref else none

/-- `schemaResolve` instrumented with a counter of `customizeSchemaResolve`
invocations: same branch structure as `schemaResolve`, second component counts
how many times the hook is called. -/
def schemaResolveCount (s : schemaValidationSettings) (schemaRef : SchemaRef) :
    Option Schema × Nat :=
  match schemaRef.Value, s.customizeSchemaResolve with
  | some v, _ => (some v, 0)
  | none, none => (none, 0)
  | none, some resolve =>
    if 0 < schemaRef.Ref.length then (resolve schemaRef.Ref, 1) else (none, 0)

theorem schemaResolveCount_fst (s : schemaValidationSettings) (r : SchemaRef) :
    (schemaResolveCount s r).1 = schemaResolve s r := by
  unfold schemaResolveCount schemaResolve
  cases r.Value <;> cases s.customizeSchemaResolve <;> try simp
  by_cases h : 0 < r.Ref.length <;> simp [h]

/-- `schemaResolve` takes its `*SchemaRef` argument by pointer and reads
`schemaRef.Value` and `schemaRef.Ref` without a nil check; a nil argument
faults. The checked variant makes the fault explicit: `none` models a nil
pointer argument and a `none` result models the fault. -/
def schemaResolveChecked (s : schemaValidationSettings)
    (schemaRef : Option SchemaRef) : Option (Option Schema) :=
  match schemaRef with
  | none => none
  | some r => some (schemaResolve s r)

/-- C1: `schemaResolve` returns a non-nil embedded schema without consulting the
hook; with no hook configured it returns nil; with a hook and a non-empty
reference it returns the hook's result, invoking it exactly once; with a hook
and an empty reference it returns nil without invoking the hook. -/
theorem schemaResolve_spec (s : schemaValidationSettings) (r : SchemaRef) :
    (∀ v, r.Value = some v → schemaResolveCount s r = (some v, 0)) ∧
    (r.Value = none → s.customizeSchemaResolve = none →
      schemaResolveCount s r = (none, 0)) ∧
    (∀ resolve, r.Value = none → s.customizeSchemaResolve = some resolve →
      0 < r.Ref.length → schemaResolveCount s r = (resolve r.Ref, 1)) ∧
    (∀ resolve, r.Value = none → s.customizeSchemaResolve = some resolve →
      r.Ref = "" → schemaResolveCount s r = (none, 0)) := by
  refine ⟨?_, ?_, ?_, ?_⟩
  · intro v hv
    simp [schemaResolveCount, hv]
  · intro hv hr
    simp [schemaResolveCount, hv, hr]
  · intro resolve hv hr hlen
    simp [schemaResolveCount, hv, hr, hlen]
  · intro resolve hv hr href
    simp [schemaResolveCount, hv, hr, href]

/-- A concrete resolver hook returning a schema derived from the reference
string, used to instantiate the resolution theorems. -/
def lengthResolver : String → Option Schema := fun ref => some ⟨ref.length⟩

/-- Settings with only the `customizeSchemaResolve` hook configured. -/
def lengthResolverSettings : schemaValidationSettings :=
  { emptySchemaValidationSettings with customizeSchemaResolve := some lengthResolver }

/-- Concrete instantiation of `schemaResolve_spec`, one input per branch. -/
theorem schemaResolve_spec_witness :
    (schemaResolveCount emptySchemaValidationSettings ⟨"", some ⟨5⟩⟩ =
      (some ⟨5⟩, 0)) ∧
    (schemaResolveCount emptySchemaValidationSettings ⟨"#/components/schemas/Pet", none⟩ =
      (none, 0)) ∧
    (schemaResolveCount lengthResolverSettings ⟨"#/components/schemas/Pet", none⟩ =
      (some ⟨24⟩, 1)) ∧
    (schemaResolveCount lengthResolverSettings ⟨"", none⟩ =
      (none, 0)) := by
  refine ⟨?_, ?_, ?_, ?_⟩
  · exact (schemaResolve_spec emptySchemaValidationSettings ⟨"", some ⟨5⟩⟩).1 ⟨5⟩ rfl
  · exact (schemaResolve_spec emptySchemaValidationSettings
      ⟨"#/components/schemas/Pet", none⟩).2.1 rfl rfl
  · exact (schemaResolve_spec lengthResolverSettings
      ⟨"#/components/schemas/Pet", none⟩).2.2.1 lengthResolver rfl rfl (by decide)
  · exact (schemaResolve_spec lengthResolverSettings ⟨"", none⟩).2.2.2
      lengthResolver rfl rfl rfl

/-- C10: `schemaResolve` dereferences its `*SchemaRef` argument with no nil
check, so it is total exactly on non-nil arguments: the checked variant faults
on nil (`none`) and succeeds on every non-nil argument. -/
theorem schemaResolve_requires_nonnil_ref (s : schemaValidationSettings)
    (p : Option SchemaRef) :
    (schemaResolveChecked s p).isSome = p.isSome ∧
    (∀ r, p = some r → schemaResolveChecked s p = some (schemaResolve s r)) := by
  refine ⟨?_, ?_⟩
  · cases p <;> simp [schemaResolveChecked]
  · intro r hr
    simp [hr, schemaResolveChecked]

/-- Concrete instantiation of `schemaResolve_requires_nonnil_ref`. -/
theorem schemaResolve_requires_nonnil_ref_witness :
    schemaResolveChecked emptySchemaValidationSettings (some ⟨"", none⟩) =
      some (schemaResolve emptySchemaValidationSettings ⟨"", none⟩) :=
  (schemaResolve_requires_nonnil_ref emptySchemaValidationSettings
    (some ⟨"", none⟩)).2 ⟨"", none⟩ rfl

/-- `SetCustomizeSchemaResolve`: sets the fallback schema-resolution hook. -/
def SetCustomizeSchemaResolve (resolve : String → Option Schema) :
    SchemaValidationOption :=
  fun s => { s with customizeSchemaResolve := some resolve }

/-- `FailFast`: sets `failfast = true`. -/
def FailFast : SchemaValidationOption :=
  fun s => { s with failfast := true }

/-- `MultiErrors`: sets `multiError = true`. -/
def MultiErrors : SchemaValidationOption :=
  fun s => { s with multiError := true }

/-- `VisitAsRequest`: sets `asreq, asrep = true, false`. -/
def VisitAsRequest : SchemaValidationOption :=
  fun s => { s with asreq := true, asrep := false }

/-- `VisitAsResponse`: sets `asreq, asrep = false, true`. -/
def VisitAsResponse : SchemaValidationOption :=
  fun s => { s with asreq := false, asrep := true }

/-- `EnableUnknownPropertyValidation`: sets `unknownPropertyValidationEnabled = true`. -/
def EnableUnknownPropertyValidation : SchemaValidationOption :=
  fun s => { s with unknownPropertyValidationEnabled := true }

/-- `EnableFormatValidation`: sets `formatValidationEnabled = true`. -/
def EnableFormatValidation : SchemaValidationOption :=
  fun s => { s with formatValidationEnabled := true }

/-- `DisablePatternValidation`: sets `patternValidationDisabled = true`. -/
def DisablePatternValidation : SchemaValidationOption :=
  fun s => { s with patternValidationDisabled := true }

/-- `DisableReadOnlyValidation`: sets `readOnlyValidationDisabled = true`. -/
def DisableReadOnlyValidation : SchemaValidationOption :=
  fun s => { s with readOnlyValidationDisabled := true }

/-- `DisableWriteOnlyValidation`: sets `writeOnlyValidationDisabled = true`. -/
def DisableWriteOnlyValidation : SchemaValidationOption :=
  fun s => { s with writeOnlyValidationDisabled := true }

/-- `DefaultsSet`: stores the defaults-applied callback. The Go callback
`func()` is side-effecting with no return value, so it is carried as `Unit`. -/
def DefaultsSet (f : Unit) : SchemaValidationOption :=
  fun s => { s with defaultsSet := some f }

/-- `SetSchemaErrorMessageCustomizer`: sets the error-message override hook. -/
def SetSchemaErrorMessageCustomizer (f : SchemaError → String) :
    SchemaValidationOption :=
  fun s => { s with customizeMessageError := some f }

/-- `newSchemaValidationSettings`: start from the zero value and apply each
option in sequence (`for _, opt := range opts { opt(settings) }`). -/
def newSchemaValidationSettings (opts : List SchemaValidationOption) :
    schemaValidationSettings :=
  opts.foldl (fun settings opt => opt settings) emptySchemaValidationSettings

/-- The recognized option values: one constructor per exported option
constructor of the source file, carrying the hook argument where the Go
constructor takes one. -/
inductive OptionValue where
  | setCustomizeSchemaResolve (resolve : String → Option Schema)
  | failFast
  | multiErrors
  | visitAsRequest
  | visitAsResponse
  | enableUnknownPropertyValidation
  | enableFormatValidation
  | disablePatternValidation
  | disableReadOnlyValidation
  | disableWriteOnlyValidation
  | defaultsSet (f : Unit)
  | setSchemaErrorMessageCustomizer (f : SchemaError → String)

/-- The `SchemaValidationOption` closure produced by each recognized option
value's Go constructor. -/
def OptionValue.toOption : OptionValue → SchemaValidationOption
  | .setCustomizeSchemaResolve resolve => SetCustomizeSchemaResolve resolve
  | .failFast => FailFast
  | .multiErrors => MultiErrors
  | .visitAsRequest => VisitAsRequest
  | .visitAsResponse => VisitAsResponse
  | .enableUnknownPropertyValidation => EnableUnknownPropertyValidation
  | .enableFormatValidation => EnableFormatValidation
  | .disablePatternValidation => DisablePatternValidation
  | .disableReadOnlyValidation => DisableReadOnlyValidation
  | .disableWriteOnlyValidation => DisableWriteOnlyValidation
  | .defaultsSet f => DefaultsSet f
  | .setSchemaErrorMessageCustomizer f => SetSchemaErrorMessageCustomizer f

/-- Construction from a sequence of recognized option values. -/
def buildSettings (l : List OptionValue) : schemaValidationSettings :=
  newSchemaValidationSettings (l.map OptionValue.toOption)

/-- In Go a `SchemaValidationOption` is a function value that may be nil, and
calling a nil function faults; the checked constructor makes that the only
fault: each list entry is `none` (nil) or an actual option closure, and a
`none` result models a fault during construction. -/
def newSchemaValidationSettingsChecked
    (opts : List (Option SchemaValidationOption)) :
    Option schemaValidationSettings :=
  opts.foldlM
    (fun settings opt =>
      match opt with
      | none => none
      | some f => some (f settings))
    emptySchemaValidationSettings

theorem foldlM_someOptions (opts : List OptionValue)
    (s : schemaValidationSettings) :
    List.foldlM
      (fun settings opt =>
        match opt with
        | none => none
        | some f => some (f settings))
      s (opts.map (fun o => some o.toOption)) =
      some (List.foldl (fun settings opt => opt settings) s
        (opts.map OptionValue.toOption)) := by
  induction opts generalizing s with
  | nil => rfl
  | cons o rest ih => simpa using ih (o.toOption s)

/-- C8: construction from any sequence of recognized option values cannot
fail — no option application faults and the checked constructor returns
exactly the settings object that `newSchemaValidationSettings` builds. -/
theorem construction_cannot_fail (l : List OptionValue) :
    newSchemaValidationSettingsChecked (l.map (fun o => some o.toOption)) =
      some (buildSettings l) := by
  unfold newSchemaValidationSettingsChecked buildSettings
    newSchemaValidationSettings
  exact foldlM_someOptions l emptySchemaValidationSettings

/-- C9: the empty option sequence yields the zero-valued settings: every
boolean toggle false and every hook absent. -/
theorem empty_options_zero_settings :
    (newSchemaValidationSettings []).failfast = false ∧
    (newSchemaValidationSettings []).multiError = false ∧
    (newSchemaValidationSettings []).asreq = false ∧
    (newSchemaValidationSettings []).asrep = false ∧
    (newSchemaValidationSettings []).formatValidationEnabled = false ∧
    (newSchemaValidationSettings []).unknownPropertyValidationEnabled = false ∧
    (newSchemaValidationSettings []).patternValidationDisabled = false ∧
    (newSchemaValidationSettings []).readOnlyValidationDisabled = false ∧
    (newSchemaValidationSettings []).writeOnlyValidationDisabled = false ∧
    (newSchemaValidationSettings []).defaultsSet = none ∧
    (newSchemaValidationSettings []).customizeMessageError = none ∧
    (newSchemaValidationSettings []).customizeSchemaResolve = none := by
  refine ⟨rfl, rfl, rfl, rfl, rfl, rfl, rfl, rfl, rfl, rfl, rfl, rfl⟩

/-- The logical fields of the settings that a recognized option can assign.
The mutually exclusive pair `asreq`/`asrep` is one logical field
(`direction`), matching the source comment `exclusive (XOR) fields`. -/
inductive SettingsField where
  | failfast
  | multiError
  | direction
  | formatValidationEnabled
  | unknownPropertyValidationEnabled
  | patternValidationDisabled
  | readOnlyValidationDisabled
  | writeOnlyValidationDisabled
  | onceSettingDefaultsDone
  | defaultsSet
  | customizeMessageError
  | customizeSchemaResolve
deriving DecidableEq

/-- All logical fields of the settings struct. -/
def SettingsField.all : List SettingsField :=
  [.failfast, .multiError, .direction, .formatValidationEnabled,
   .unknownPropertyValidationEnabled, .patternValidationDisabled,
   .readOnlyValidationDisabled, .writeOnlyValidationDisabled,
   .onceSettingDefaultsDone, .defaultsSet, .customizeMessageError,
   .customizeSchemaResolve]

/-- Agreement of two settings objects on one logical field. -/
def fieldEq :
    SettingsField → schemaValidationSettings → schemaValidationSettings → Prop
  | .failfast, s, t => s.failfast = t.failfast
  | .multiError, s, t => s.multiError = t.multiError
  | .direction, s, t => s.asreq = t.asreq ∧ s.asrep = t.asrep
  | .formatValidationEnabled, s, t =>
      s.formatValidationEnabled = t.formatValidationEnabled
  | .unknownPropertyValidationEnabled, s, t =>
      s.unknownPropertyValidationEnabled = t.unknownPropertyValidationEnabled
  | .patternValidationDisabled, s, t =>
      s.patternValidationDisabled = t.patternValidationDisabled
  | .readOnlyValidationDisabled, s, t =>
      s.readOnlyValidationDisabled = t.readOnlyValidationDisabled
  | .writeOnlyValidationDisabled, s, t =>
      s.writeOnlyValidationDisabled = t.writeOnlyValidationDisabled
  | .onceSettingDefaultsDone, s, t =>
      s.onceSettingDefaultsDone = t.onceSettingDefaultsDone
  | .defaultsSet, s, t => s.defaultsSet = t.defaultsSet
  | .customizeMessageError, s, t =>
      s.customizeMessageError = t.customizeMessageError
  | .customizeSchemaResolve, s, t =>
      s.customizeSchemaResolve = t.customizeSchemaResolve

theorem fieldEq_refl (f : SettingsField) (s : schemaValidationSettings) :
    fieldEq f s s := by
  cases f <;> simp [fieldEq]

theorem fieldEq_trans (f : SettingsField) {s t u : schemaValidationSettings}
    (h1 : fieldEq f s t) (h2 : fieldEq f t u) : fieldEq f s u := by
  cases f <;> simp only [fieldEq] at h1 h2 ⊢ <;>
    first
      | exact h1.trans h2
      | exact ⟨h1.1.trans h2.1, h1.2.trans h2.2⟩

/-- Which logical field a recognized option's closure assigns. -/
def OptionValue.writes : OptionValue → SettingsField → Bool
  | .setCustomizeSchemaResolve _, .customizeSchemaResolve => true
  | .failFast, .failfast => true
  | .multiErrors, .multiError => true
  | .visitAsRequest, .direction => true
  | .visitAsResponse, .direction => true
  | .enableUnknownPropertyValidation, .unknownPropertyValidationEnabled => true
  | .enableFormatValidation, .formatValidationEnabled => true
  | .disablePatternValidation, .patternValidationDisabled => true
  | .disableReadOnlyValidation, .readOnlyValidationDisabled => true
  | .disableWriteOnlyValidation, .writeOnlyValidationDisabled => true
  | .defaultsSet _, .defaultsSet => true
  | .setSchemaErrorMessageCustomizer _, .customizeMessageError => true
  | _, _ => false

theorem writes_false_frame (o : OptionValue) (f : SettingsField)
    (s : schemaValidationSettings) (h : o.writes f = false) :
    fieldEq f (o.toOption s) s := by
  cases o <;> cases f <;>
    simp_all [OptionValue.writes, OptionValue.toOption, fieldEq,
      SetCustomizeSchemaResolve, FailFast, MultiErrors, VisitAsRequest,
      VisitAsResponse, EnableUnknownPropertyValidation, EnableFormatValidation,
      DisablePatternValidation, DisableReadOnlyValidation,
      DisableWriteOnlyValidation, DefaultsSet, SetSchemaErrorMessageCustomizer]

theorem writes_true_value (o : OptionValue) (f : SettingsField)
    (s t : schemaValidationSettings) (h : o.writes f = true) :
    fieldEq f (o.toOption s) (o.toOption t) := by
  cases o <;> cases f <;>
    simp_all [OptionValue.writes, OptionValue.toOption, fieldEq,
      SetCustomizeSchemaResolve, FailFast, MultiErrors, VisitAsRequest,
      VisitAsResponse, EnableUnknownPropertyValidation, EnableFormatValidation,
      DisablePatternValidation, DisableReadOnlyValidation,
      DisableWriteOnlyValidation, DefaultsSet, SetSchemaErrorMessageCustomizer]

theorem toOption_toggle_fields (o : OptionValue) (s : schemaValidationSettings) :
    ((o.toOption s).failfast = (s.failfast || o.writes .failfast)) ∧
    ((o.toOption s).multiError = (s.multiError || o.writes .multiError)) ∧
    ((o.toOption s).formatValidationEnabled =
      (s.formatValidationEnabled || o.writes .formatValidationEnabled)) ∧
    ((o.toOption s).unknownPropertyValidationEnabled =
      (s.unknownPropertyValidationEnabled ||
        o.writes .unknownPropertyValidationEnabled)) ∧
    ((o.toOption s).patternValidationDisabled =
      (s.patternValidationDisabled || o.writes .patternValidationDisabled)) ∧
    ((o.toOption s).readOnlyValidationDisabled =
      (s.readOnlyValidationDisabled || o.writes .readOnlyValidationDisabled)) ∧
    ((o.toOption s).writeOnlyValidationDisabled =
      (s.writeOnlyValidationDisabled || o.writes .writeOnlyValidationDisabled)) := by
  cases o <;>
    simp [OptionValue.writes, OptionValue.toOption,
      SetCustomizeSchemaResolve, FailFast, MultiErrors, VisitAsRequest,
      VisitAsResponse, EnableUnknownPropertyValidation, EnableFormatValidation,
      DisablePatternValidation, DisableReadOnlyValidation,
      DisableWriteOnlyValidation, DefaultsSet, SetSchemaErrorMessageCustomizer]

theorem step_direction_excl (o : OptionValue) (s : schemaValidationSettings)
    (h : (s.asreq && s.asrep) = false) :
    ((o.toOption s).asreq && (o.toOption s).asrep) = false := by
  cases o <;>
    simp_all [OptionValue.toOption, SetCustomizeSchemaResolve, FailFast,
      MultiErrors, VisitAsRequest, VisitAsResponse,
      EnableUnknownPropertyValidation, EnableFormatValidation,
      DisablePatternValidation, DisableReadOnlyValidation,
      DisableWriteOnlyValidation, DefaultsSet, SetSchemaErrorMessageCustomizer]

theorem foldl_direction_excl (l : List OptionValue)
    (s : schemaValidationSettings) (h : (s.asreq && s.asrep) = false) :
    (((l.map OptionValue.toOption).foldl (fun settings opt => opt settings)
        s).asreq &&
      ((l.map OptionValue.toOption).foldl (fun settings opt => opt settings)
        s).asrep) = false := by
  induction l generalizing s with
  | nil => simpa using h
  | cons o rest ih => simpa using ih (o.toOption s) (step_direction_excl o s h)

/-- C3: no sequence of recognized options ever produces settings with both
`asreq` and `asrep` set, and any sequence ending with `VisitAsRequest` then
`VisitAsResponse` yields the response direction only. -/
theorem direction_mutual_exclusion (l pre : List OptionValue) :
    ((buildSettings l).asreq && (buildSettings l).asrep) = false ∧
    (buildSettings (pre ++ [.visitAsRequest, .visitAsResponse])).asreq = false ∧
    (buildSettings (pre ++ [.visitAsRequest, .visitAsResponse])).asrep = true := by
  refine ⟨foldl_direction_excl l emptySchemaValidationSettings rfl, ?_, ?_⟩ <;>
    simp [buildSettings, newSchemaValidationSettings, List.map_append,
      List.foldl_append, OptionValue.toOption, VisitAsRequest, VisitAsResponse]

theorem foldl_no_writes (f : SettingsField) (l : List OptionValue)
    (s : schemaValidationSettings)
    (h : ∀ o ∈ l, OptionValue.writes o f = false) :
    fieldEq f
      ((l.map OptionValue.toOption).foldl (fun settings opt => opt settings) s)
      s := by
  induction l generalizing s with
  | nil => exact fieldEq_refl f s
  | cons o rest ih =>
    simp only [List.map_cons, List.foldl_cons]
    exact fieldEq_trans f
      (ih (o.toOption s) (fun o' ho' => h o' (List.mem_cons_of_mem o ho')))
      (writes_false_frame o f s (h o (List.mem_cons_self o rest)))

/-- C4: construction applies the options in sequence to the zero value, and the
last option in the list assigning a given logical field determines that field's
final value: if no option after `o` assigns field `f`, the built settings agree
on `f` with `o` applied alone. -/
theorem construction_later_option_wins (f : SettingsField)
    (l1 l2 : List OptionValue) (o : OptionValue)
    (hw : o.writes f = true)
    (hl2 : ∀ o' ∈ l2, OptionValue.writes o' f = false) :
    fieldEq f (buildSettings (l1 ++ o :: l2))
      (o.toOption emptySchemaValidationSettings) := by
  have hsplit : buildSettings (l1 ++ o :: l2) =
      (l2.map OptionValue.toOption).foldl (fun settings opt => opt settings)
        (o.toOption (buildSettings l1)) := by
    simp [buildSettings, newSchemaValidationSettings, List.map_append,
      List.foldl_append]
  rw [hsplit]
  exact fieldEq_trans f (foldl_no_writes f l2 _ hl2)
    (writes_true_value o f (buildSettings l1) emptySchemaValidationSettings hw)

/-- Concrete instantiation of `construction_later_option_wins`: with
`VisitAsRequest` earlier and an unrelated `FailFast` later, `VisitAsResponse`
determines the final direction. -/
theorem construction_later_option_wins_witness :
    fieldEq .direction
      (buildSettings [.visitAsRequest, .visitAsResponse, .failFast])
      (OptionValue.visitAsResponse.toOption emptySchemaValidationSettings) :=
  construction_later_option_wins .direction [.visitAsRequest] [.failFast]
    .visitAsResponse rfl (by decide)

theorem toggle_independence (g : schemaValidationSettings → Bool)
    (p : OptionValue → Bool)
    (hempty : g emptySchemaValidationSettings = false)
    (hstep : ∀ (s : schemaValidationSettings) (o : OptionValue),
      g (o.toOption s) = (g s || p o)) (l : List OptionValue) :
    g (buildSettings l) = l.any p := by
  have key : ∀ (l2 : List OptionValue) (s : schemaValidationSettings),
      g ((l2.map OptionValue.toOption).foldl
          (fun settings opt => opt settings) s) =
        (g s || l2.any p) := by
    intro l2
    induction l2 with
    | nil => intro s; simp
    | cons o rest ih =>
      intro s
      simp [List.foldl_cons, ih, hstep, Bool.or_assoc]
  simpa [buildSettings, newSchemaValidationSettings, hempty]
    using key l emptySchemaValidationSettings

theorem build_toggle_mem_iff (fld : SettingsField)
    (g : schemaValidationSettings → Bool) (trig : OptionValue)
    (hempty : g emptySchemaValidationSettings = false)
    (hstep : ∀ (s : schemaValidationSettings) (o : OptionValue),
      g (o.toOption s) = (g s || o.writes fld))
    (huniq : ∀ o : OptionValue, o.writes fld = true → o = trig)
    (htrig : trig.writes fld = true)
    (l : List OptionValue) :
    g (buildSettings l) = true ↔ trig ∈ l := by
  rw [toggle_independence g (fun o => o.writes fld) hempty hstep l]
  constructor
  · intro h
    rcases List.any_eq_true.mp h with ⟨o', ho', hw'⟩
    have he := huniq o' hw'
    subst he
    exact ho'
  · intro h
    exact List.any_eq_true.mpr ⟨trig, h, htrig⟩

/-- C5: each recognized option assigns exactly one logical field (the
direction pair counting as one) and leaves every other field unchanged, and
each independent boolean toggle of the built settings is true exactly when its
own option occurs in the sequence, unaffected by unrelated options. -/
theorem option_frame_and_independence (o : OptionValue) (f : SettingsField)
    (s : schemaValidationSettings) (l : List OptionValue) :
    (o.writes f = false → fieldEq f (o.toOption s) s) ∧
    (SettingsField.all.filter (fun fld => o.writes fld)).length = 1 ∧
    ((buildSettings l).failfast = true ↔ OptionValue.failFast ∈ l) ∧
    ((buildSettings l).multiError = true ↔ OptionValue.multiErrors ∈ l) ∧
    ((buildSettings l).formatValidationEnabled = true ↔
      OptionValue.enableFormatValidation ∈ l) ∧
    ((buildSettings l).unknownPropertyValidationEnabled = true ↔
      OptionValue.enableUnknownPropertyValidation ∈ l) ∧
    ((buildSettings l).patternValidationDisabled = true ↔
      OptionValue.disablePatternValidation ∈ l) ∧
    ((buildSettings l).readOnlyValidationDisabled = true ↔
      OptionValue.disableReadOnlyValidation ∈ l) ∧
    ((buildSettings l).writeOnlyValidationDisabled = true ↔
      OptionValue.disableWriteOnlyValidation ∈ l) := by
  refine ⟨fun h => writes_false_frame o f s h, ?_, ?_, ?_, ?_, ?_, ?_, ?_, ?_⟩
  · cases o <;> rfl
  · exact build_toggle_mem_iff .failfast (fun st => st.failfast) .failFast rfl
      (fun s' o' => (toOption_toggle_fields o' s').1)
      (by intro o' h; cases o' <;> simp_all [OptionValue.writes]) rfl l
  · exact build_toggle_mem_iff .multiError (fun st => st.multiError)
      .multiErrors rfl
      (fun s' o' => (toOption_toggle_fields o' s').2.1)
      (by intro o' h; cases o' <;> simp_all [OptionValue.writes]) rfl l
  · exact build_toggle_mem_iff .formatValidationEnabled
      (fun st => st.formatValidationEnabled) .enableFormatValidation rfl
      (fun s' o' => (toOption_toggle_fields o' s').2.2.1)
      (by intro o' h; cases o' <;> simp_all [OptionValue.writes]) rfl l
  · exact build_toggle_mem_iff .unknownPropertyValidationEnabled
      (fun st => st.unknownPropertyValidationEnabled)
      .enableUnknownPropertyValidation rfl
      (fun s' o' => (toOption_toggle_fields o' s').2.2.2.1)
      (by intro o' h; cases o' <;> simp_all [OptionValue.writes]) rfl l
  · exact build_toggle_mem_iff .patternValidationDisabled
      (fun st => st.patternValidationDisabled) .disablePatternValidation rfl
      (fun s' o' => (toOption_toggle_fields o' s').2.2.2.2.1)
      (by intro o' h; cases o' <;> simp_all [OptionValue.writes]) rfl l
  · exact build_toggle_mem_iff .readOnlyValidationDisabled
      (fun st => st.readOnlyValidationDisabled) .disableReadOnlyValidation rfl
      (fun s' o' => (toOption_toggle_fields o' s').2.2.2.2.2.1)
      (by intro o' h; cases o' <;> simp_all [OptionValue.writes]) rfl l
  · exact build_toggle_mem_iff .writeOnlyValidationDisabled
      (fun st => st.writeOnlyValidationDisabled) .disableWriteOnlyValidation rfl
      (fun s' o' => (toOption_toggle_fields o' s').2.2.2.2.2.2)
      (by intro o' h; cases o' <;> simp_all [OptionValue.writes]) rfl l

/-- Concrete instantiation of `option_frame_and_independence`: `FailFast`
leaves `multiError` unchanged, and after `[FailFast, MultiErrors]` the
`failfast` toggle is set precisely because its option is present. -/
theorem option_frame_and_independence_witness :
    fieldEq .multiError
      (OptionValue.failFast.toOption emptySchemaValidationSettings)
      emptySchemaValidationSettings ∧
    ((buildSettings [OptionValue.failFast, OptionValue.multiErrors]).failfast =
        true ↔
      OptionValue.failFast ∈ [OptionValue.failFast, OptionValue.multiErrors]) :=
  ⟨(option_frame_and_independence OptionValue.failFast .multiError
      emptySchemaValidationSettings
      [OptionValue.failFast, OptionValue.multiErrors]).1 rfl,
   (option_frame_and_independence OptionValue.failFast .multiError
      emptySchemaValidationSettings
      [OptionValue.failFast, OptionValue.multiErrors]).2.2.1⟩

/-- Modelled from the spec: the notify-defaults-applied operation. Its call
site (`settings.onceSettingDefaults.Do(f)` during the validation traversal in
`schema.go`) is missing from the examined source; only the `sync.Once` latch
and the `defaultsSet` callback it uses are declared there. Per the spec, with
no callback configured it is a no-op; with one configured it executes the
callback and fires the latch atomically the first time and does nothing after.
The state is passed explicitly and the second component counts callback
executions. -/
def notifyDefaultsApplied (s : schemaValidationSettings) (execCount : Nat) :
    schemaValidationSettings × Nat :=
  match s.defaultsSet with
  | none => (s, execCount)
  | some _ =>
    if s.onceSettingDefaultsDone then (s, execCount)
    else ({ s with onceSettingDefaultsDone := true }, execCount + 1)

/-- `n` sequential invocations of `notifyDefaultsApplied`. -/
def notifyDefaultsAppliedTimes (s : schemaValidationSettings)
    (execCount : Nat) : Nat → schemaValidationSettings × Nat
  | 0 => (s, execCount)
  | Nat.succ n =>
    notifyDefaultsAppliedTimes (notifyDefaultsApplied s execCount).1
      (notifyDefaultsApplied s execCount).2 n

theorem notifyTimes_no_callback (s : schemaValidationSettings) (c n : Nat)
    (h : s.defaultsSet = none) :
    notifyDefaultsAppliedTimes s c n = (s, c) := by
  induction n with
  | zero => rfl
  | succ n ih =>
    simp [notifyDefaultsAppliedTimes, notifyDefaultsApplied, h, ih]

theorem notifyTimes_latch_fired (s : schemaValidationSettings) (c n : Nat)
    (h : s.onceSettingDefaultsDone = true) :
    notifyDefaultsAppliedTimes s c n = (s, c) := by
  induction n with
  | zero => rfl
  | succ n ih =>
    cases hd : s.defaultsSet <;>
      simp [notifyDefaultsAppliedTimes, notifyDefaultsApplied, hd, h, ih]

/-- C2: starting from a settings object whose latch is unfired, any number of
sequential notify-defaults-applied invocations executes the callback at most
once; and when a callback is configured, one or more invocations (three in
particular) execute it exactly once. -/
theorem notify_defaults_at_most_once (s : schemaValidationSettings) (n : Nat)
    (h : s.onceSettingDefaultsDone = false) :
    (notifyDefaultsAppliedTimes s 0 n).2 ≤ 1 ∧
    (s.defaultsSet.isSome = true → 1 ≤ n →
      (notifyDefaultsAppliedTimes s 0 n).2 = 1) := by
  cases n with
  | zero => exact ⟨Nat.zero_le 1, fun _ h1 => absurd h1 (by simp)⟩
  | succ n =>
    cases hd : s.defaultsSet with
    | none =>
      refine ⟨?_, ?_⟩
      · rw [notifyTimes_no_callback s 0 (n + 1) hd]
        exact Nat.zero_le 1
      · intro hsome _
        simp [hd] at hsome
    | some u =>
      have hstep : notifyDefaultsApplied s 0 =
          ({ s with onceSettingDefaultsDone := true }, 1) := by
        simp [notifyDefaultsApplied, hd, h]
      have hrest :
          notifyDefaultsAppliedTimes
            { s with onceSettingDefaultsDone := true } 1 n =
            ({ s with onceSettingDefaultsDone := true }, 1) :=
        notifyTimes_latch_fired _ 1 n rfl
      refine ⟨?_, fun _ _ => ?_⟩ <;>
        simp [notifyDefaultsAppliedTimes, hstep, hrest]

/-- A fresh settings object with only the defaults-applied callback
configured. -/
def defaultsCallbackSettings : schemaValidationSettings :=
  { emptySchemaValidationSettings with defaultsSet := some () }

/-- Concrete instantiation of `notify_defaults_at_most_once`: three sequential
invocations on a fresh settings object with a callback execute it exactly
once. -/
theorem notify_defaults_at_most_once_witness :
    (notifyDefaultsAppliedTimes defaultsCallbackSettings 0 3).2 = 1 :=
  (notify_defaults_at_most_once defaultsCallbackSettings 3 rfl).2 rfl
    (by decide)

/-- Modelled from the spec: the error-message rendering operation. Its call
site (`SchemaError.Error` in `schema.go`, which consults
`customizeMessageError`) is missing from the examined source; only the hook
field and its option constructor are declared there. Per the spec, no hook or
an empty-string hook result falls back to the error's default rendering,
otherwise the hook's non-empty string is the rendered message. -/
def formatErrorMessage (s : schemaValidationSettings) (err : SchemaError) :
    String :=
  match s.customizeMessageError with
  | none => err.defaultMessage
  | some f => if f err = "" then err.defaultMessage else f err

/-- C7: with no customizer, or a customizer returning the empty string for the
error, the rendered message is the default rendering; a non-empty customizer
result becomes the rendered message. -/
theorem formatErrorMessage_spec (s : schemaValidationSettings)
    (err : SchemaError) :
    (s.customizeMessageError = none →
      formatErrorMessage s err = err.defaultMessage) ∧
    (∀ f, s.customizeMessageError = some f →
      (f err = "" → formatErrorMessage s err = err.defaultMessage) ∧
      (f err ≠ "" → formatErrorMessage s err = f err)) := by
  refine ⟨fun h => by simp [formatErrorMessage, h], ?_⟩
  intro f hf
  refine ⟨fun he => by simp [formatErrorMessage, hf, he],
    fun hne => by simp [formatErrorMessage, hf, hne]⟩

/-- A concrete customizer returning the empty string for one error and a fixed
message for every other. -/
def messageCustomizer : SchemaError → String :=
  fun e => if e.defaultMessage = "short" then "" else "custom message"

/-- Settings with only the error-message customizer configured. -/
def customizerSettings : schemaValidationSettings :=
  { emptySchemaValidationSettings with
      customizeMessageError := some messageCustomizer }

/-- Concrete instantiation of `formatErrorMessage_spec`: no customizer falls
back to the default, an empty customizer result falls back to the default, a
non-empty result replaces it. -/
theorem formatErrorMessage_spec_witness :
    (formatErrorMessage emptySchemaValidationSettings ⟨"default text"⟩ =
      "default text") ∧
    (formatErrorMessage customizerSettings ⟨"short"⟩ = "short") ∧
    (formatErrorMessage customizerSettings ⟨"default text"⟩ =
      "custom message") :=
  ⟨(formatErrorMessage_spec emptySchemaValidationSettings
      ⟨"default text"⟩).1 rfl,
   ((formatErrorMessage_spec customizerSettings ⟨"short"⟩).2
      messageCustomizer rfl).1 (by decide),
   ((formatErrorMessage_spec customizerSettings ⟨"default text"⟩).2
      messageCustomizer rfl).2 (by decide)⟩

end Openapi3
